import Mathlib

/-!
Shallow embedding of the classroom-management REST backend
(`src/routes/classRoomRoute.ts`, `src/routes/postRoute.ts`,
`src/prisma/schema.prisma`).

The relational store is a record of lists, one per Prisma model.  Each
Express route handler becomes a Lean function from the store (plus the
already-parsed pieces of the HTTP request) to an HTTP status code and
the successor store.  JavaScript values that may be absent or fail the
`Number(...)` conversion are modelled as `Option` values: `none` stands
for `undefined`/`NaN`, which makes the Prisma call throw and the
handler answer 500 from its `catch` block.  `express-validator` chains
are modelled on a small JavaScript-value type `JsVal`.  Foreign-key
checks of the database are modelled explicitly: an insert whose
referenced row is absent throws, which the handler answers with 500.
-/

/-- Prisma enum `Role` (schema.prisma). -/
inductive Role where
  | ADMIN
  | MODERATOR
  | NORMAL
deriving Repr, DecidableEq

/-- Prisma enum `PostType` (schema.prisma). -/
inductive PostType where
  | ASSIGNMENT
  | MESSAGE
deriving Repr, DecidableEq

/-- Prisma model `User`. -/
structure User where
  id : Int
  name : String
  email : String
  password : String
deriving Repr, DecidableEq

/-- Prisma model `ClassRoom`. -/
structure ClassRoom where
  id : Int
  name : String
  description : Option String
  createdBy : Int
deriving Repr, DecidableEq

/-- Prisma model `ClassMember`. -/
structure ClassMember where
  id : Int
  userId : Int
  classId : Int
  role : Role
deriving Repr, DecidableEq

/-- Prisma model `Post`. -/
structure Post where
  id : Int
  title : String
  content : String
  classRoomId : Int
  authorId : Int
  postType : PostType
deriving Repr, DecidableEq

/-- Prisma model `Comment` (comments attach to file uploads). -/
structure Comment where
  id : Int
  content : String
  fileId : Int
  authorId : Int
deriving Repr, DecidableEq

/-- Prisma model `FileUpload`.  `createdAt` is the database `now()`. -/
structure FileUpload where
  id : Int
  filePath : String
  fileType : String
  userId : Int
  classId : Int
  fileName : String
  createdAt : Int
deriving Repr, DecidableEq

/-- Prisma model `Assignment`. -/
structure Assignment where
  id : Int
  title : String
  description : Option String
  classId : Int
  createdBy : Int
  fileId : Option Int
deriving Repr, DecidableEq

/-- Prisma model `AssignmentAssignmentTo` (fan-out join table). -/
structure AssignmentAssignmentTo where
  id : Int
  assignmentId : Int
  userId : Int
  assignedAt : Int
deriving Repr, DecidableEq

/-- Prisma model `Submission` (`grade` defaults to 0). -/
structure Submission where
  id : Int
  assignmentId : Int
  userId : Int
  fileName : String
  filePath : String
  createdAt : Int
  grade : Int
deriving Repr, DecidableEq

/-- The relational store: one row list per Prisma model. -/
structure Store where
  users : List User
  classRooms : List ClassRoom
  classMembers : List ClassMember
  posts : List Post
  comments : List Comment
  fileUploads : List FileUpload
  assignments : List Assignment
  assignmentTos : List AssignmentAssignmentTo
  submissions : List Submission
deriving Repr, DecidableEq

/-- A JavaScript request-body value: a string, a number, or absent. -/
inductive JsVal where
  | str : String → JsVal
  | num : Int → JsVal
  | undef : JsVal
deriving Repr, DecidableEq

/-- `body(f).notEmpty().isString()`: passes exactly on non-empty strings. -/
def notEmptyString : JsVal → Option String
  | JsVal.str s => if s = "" then none else some s
  | _ => none

/-- `isInt({ gt: 0 }).toInt()`: passes on positive integers and positive
integer-numeral strings, returning the converted integer. -/
def toPosInt : JsVal → Option Int
  | JsVal.num n => if 0 < n then some n else none
  | JsVal.str s =>
      match s.toInt? with
      | some n => if 0 < n then some n else none
      | none => none
  | JsVal.undef => none

/-- JavaScript `Number(...)` on a route-parameter string, `none` for `NaN`. -/
def jsNumber (s : String) : Option Int := s.toInt?

/-- The `SERIAL` sequence of a table: one more than the largest id used. -/
def nextId (ids : List Int) : Int := ids.foldr max 0 + 1

/-- Foreign-key test: some `User` row has this id. -/
def hasUser (s : Store) (uid : Int) : Bool := s.users.any (fun u => u.id == uid)

/-- Foreign-key test: some `ClassRoom` row has this id. -/
def hasClass (s : Store) (cid : Int) : Bool := s.classRooms.any (fun c => c.id == cid)

/-- Foreign-key test: some `FileUpload` row has this id. -/
def hasFile (s : Store) (fid : Int) : Bool := s.fileUploads.any (fun f => f.id == fid)

/-- Foreign-key test: some `Assignment` row has this id. -/
def hasAssignment (s : Store) (aid : Int) : Bool :=
  s.assignments.any (fun a => a.id == aid)

/-- A multipart upload as multer hands it to the handler. -/
structure ReqFile where
  originalname : String
  path : String
deriving Repr, DecidableEq

/-- `path.extname`: the extension of a name, from its last dot. -/
def extname (s : String) : String :=
  if s.toList.contains '.' then
    String.mk ('.' :: (s.toList.reverse.takeWhile (fun c => c ≠ '.')).reverse)
  else ""

/-- `POST /api/classrooms/upload` (classRoomRoute.ts 46-80): reject with
400 when multer attached no file, otherwise insert one `FileUpload` row
whose `filePath` is built from protocol, host and the multer filename
(`Date.now()` plus the original extension). -/
def uploadFile (s : Store) (file : Option ReqFile) (fileType : Option String)
    (userId classId : Option Int) (fileName : Option String)
    (protocol host : String) (now : Int) : Nat × Store :=
  match file with
  | none => (400, s)
  | some f =>
    let fileUrl := protocol ++ "://" ++ host ++ "/public/" ++ toString now
        ++ extname f.originalname
    match fileType, userId, classId, fileName with
    | some ft, some uid, some cid, some fn =>
      if hasUser s uid ∧ hasClass s cid then
        (201, { s with fileUploads := s.fileUploads ++
          [{ id := nextId (s.fileUploads.map (fun r => r.id)), filePath := fileUrl,
             fileType := ft, userId := uid, classId := cid, fileName := fn,
             createdAt := now }] })
      else (500, s)
    | _, _, _, _ => (500, s)

/-- `GET /api/classrooms/:classId/files` (classRoomRoute.ts 102-126). -/
def listFiles (s : Store) (classId : Int) : List FileUpload :=
  s.fileUploads.filter (fun f => f.classId == classId)

/-- `GET /api/classrooms/:userId/classes` (classRoomRoute.ts 165-205):
400 when the `userId` parameter fails `isInt({ gt: 0 })`, otherwise the
classrooms having some member row with this `userId`. -/
def listUserClasses (s : Store) (userId : Int) : Nat × List ClassRoom :=
  if userId ≤ 0 then (400, [])
  else (200, s.classRooms.filter (fun c =>
    s.classMembers.any (fun m => m.classId == c.id && m.userId == userId)))

/-- `POST /api/classrooms` (classRoomRoute.ts 250-294): 400 when a
validator fails, otherwise insert one `ClassRoom` row together with the
nested-create `ClassMember` row for the creator with role `ADMIN`. -/
def createClassroom (s : Store) (name description creatorId : JsVal) :
    Nat × Option ClassRoom × Store :=
  match notEmptyString name, notEmptyString description, toPosInt creatorId with
  | some nm, some ds, some cid =>
    if hasUser s cid then
      let room : ClassRoom :=
        { id := nextId (s.classRooms.map (fun c => c.id)), name := nm,
          description := some ds, createdBy := cid }
      let mem : ClassMember :=
        { id := nextId (s.classMembers.map (fun m => m.id)), userId := cid,
          classId := room.id, role := Role.ADMIN }
      (201, some room, { s with classRooms := s.classRooms ++ [room],
                                classMembers := s.classMembers ++ [mem] })
    else (500, none, s)
  | _, _, _ => (400, none, s)

/-- `POST /api/classrooms/:classId/add-member`, first copy
(classRoomRoute.ts 344-380): 400 when a validator fails, otherwise
insert one `ClassMember` row with role `NORMAL`.  The request body's
`role` field is never read by the handler. -/
def addMember (s : Store) (classId userId : JsVal) (roleBody : Option String) :
    Nat × Store :=
  match toPosInt classId, toPosInt userId with
  | some cid, some uid =>
    if hasClass s cid ∧ hasUser s uid then
      (201, { s with classMembers := s.classMembers ++
        [{ id := nextId (s.classMembers.map (fun m => m.id)), userId := uid,
           classId := cid, role := Role.NORMAL }] })
    else (500, s)
  | _, _ => (400, s)

/-- `POST /api/classrooms/:classId/add-member`, second copy
(classRoomRoute.ts 1267-1303): the duplicated route file's version,
translated separately; it also never reads the body's `role` field. -/
def addMemberSecond (s : Store) (classId userId : JsVal)
    (roleBody : Option String) : Nat × Store :=
  match toPosInt classId, toPosInt userId with
  | some cid, some uid =>
    if hasClass s cid ∧ hasUser s uid then
      (201, { s with classMembers := s.classMembers ++
        [{ id := nextId (s.classMembers.map (fun m => m.id)), userId := uid,
           classId := cid, role := Role.NORMAL }] })
    else (500, s)
  | _, _ => (400, s)

/-- `GET /api/classrooms/:classId/members` (classRoomRoute.ts 419-447). -/
def listMembers (s : Store) (classId : Int) : List ClassMember :=
  s.classMembers.filter (fun m => m.classId == classId)

/-- The `userId` column of the member rows of one class, as queried by
the available-members route (`findMany` + `select userId` + `map`). -/
def memberIdsOf (s : Store) (classId : Int) : List Int :=
  (s.classMembers.filter (fun m => m.classId == classId)).map (fun m => m.userId)

/-- `GET /api/classrooms/:classId/available-members/:currentUserId`
(classRoomRoute.ts 489-539): all users except the current user, then a
client-side filter dropping the ids of the class's member rows. -/
def availableMembers (s : Store) (classId currentUserId : Int) : List User :=
  let allUsers := s.users.filter (fun u => u.id != currentUserId)
  let memberIds := memberIdsOf s classId
  allUsers.filter (fun u => !(memberIds.contains u.id))

/-- `POST /api/classrooms/:classId/files/:fileId/comments`
(classRoomRoute.ts 588-611): no validation chain; an absent `content`
or `authorId`, or a foreign-key miss, makes the insert throw, answered
with 500; otherwise one `Comment` row is inserted. -/
def addComment (s : Store) (fileId : Option Int) (content : Option String)
    (authorId : Option Int) : Nat × Store :=
  match fileId, content, authorId with
  | some fid, some c, some aid =>
    if hasFile s fid ∧ hasUser s aid then
      (201, { s with comments := s.comments ++
        [{ id := nextId (s.comments.map (fun x => x.id)), content := c,
           fileId := fid, authorId := aid }] })
    else (500, s)
  | _, _, _ => (500, s)

/-- `GET /api/classrooms/files/:fileId/comments` (classRoomRoute.ts 649-677). -/
def listComments (s : Store) (fileId : Int) : List Comment :=
  s.comments.filter (fun c => c.fileId == fileId)

/-- `PUT /api/classrooms/:classId/update-member-role`
(classRoomRoute.ts 761-790): no validation chain; `updateMany` sets the
role of every row matching `(classId, userId)`, then the handler answers
404 when the reported count is zero and 200 otherwise.  An unparsable
id or role value makes the query throw, answered with 500. -/
def updateMemberRole (s : Store) (classId userId : Option Int)
    (role : Option Role) : Nat × Store :=
  match classId, userId, role with
  | some cid, some uid, some r =>
    let count := (s.classMembers.filter
      (fun m => m.classId == cid && m.userId == uid)).length
    let updated := s.classMembers.map
      (fun m => if m.classId == cid && m.userId == uid then
        { m with role := r } else m)
    let s2 := { s with classMembers := updated }
    if count == 0 then (404, s2) else (200, s2)
  | _, _, _ => (500, s)

/-- The rows handed to `createMany` by the assignment fan-out: one row
per member, carrying the new assignment's id and the member's user id,
with the database assigning consecutive ids from the sequence. -/
def fanout (assignmentId now : Int) (base : Int) :
    List ClassMember → List AssignmentAssignmentTo
  | [] => []
  | m :: ms =>
      { id := base, assignmentId := assignmentId, userId := m.userId,
        assignedAt := now } :: fanout assignmentId now (base + 1) ms

/-- `POST /api/classrooms/:classId/assignments` (classRoomRoute.ts
793-835): no validation chain.  Insert one `Assignment` row (note
`Number(fileId)`: an absent `fileId` is `NaN` and throws), then fetch
the class's member rows excluding the creator and bulk-insert one
`AssignmentAssignmentTo` row per member.  The two inserts are not
wrapped in a transaction: a failing fan-out leaves the assignment row
behind. -/
def createAssignment (s : Store) (classId : Option Int) (title : Option String)
    (description : Option String) (createdBy fileId : Option Int)
    (now : Int) : Nat × Store :=
  match classId, title, createdBy, fileId with
  | some cid, some t, some cb, some f =>
    if hasClass s cid ∧ hasUser s cb ∧ hasFile s f then
      let a : Assignment :=
        { id := nextId (s.assignments.map (fun x => x.id)), title := t,
          description := description, classId := cid, createdBy := cb,
          fileId := some f }
      let s1 := { s with assignments := s.assignments ++ [a] }
      let members := s.classMembers.filter
        (fun m => m.classId == cid && m.userId != cb)
      let tos := fanout a.id now (nextId (s.assignmentTos.map (fun x => x.id)))
        members
      if members.all (fun m => hasUser s m.userId) then
        (201, { s1 with assignmentTos := s1.assignmentTos ++ tos })
      else (500, s1)
    else (500, s)
  | _, _, _, _ => (500, s)

/-- One element of the list answered by the assignments query: the
assignment with its `assignedTo` and `submissions` filtered to the
requesting user. -/
structure AssignmentView where
  assignment : Assignment
  assignedTo : List AssignmentAssignmentTo
  submissions : List Submission
deriving Repr, DecidableEq

/-- `GET /api/classrooms/:classId/:userId/assignments` (classRoomRoute.ts
837-866): the handler first answers 401 when `userId` is falsy (for a
string parameter: empty), then runs the query on `Number(classId)` and
`Number(userId)`; a `NaN` in the query throws, answered with 500. -/
def listAssignments (s : Store) (classId userId : String) :
    Nat × List AssignmentView :=
  if userId = "" then (401, [])
  else
    match jsNumber classId, jsNumber userId with
    | some cid, some uid =>
      (200, (s.assignments.filter (fun a => a.classId == cid)).map (fun a =>
        { assignment := a,
          assignedTo := s.assignmentTos.filter
            (fun x => x.assignmentId == a.id && x.userId == uid),
          submissions := s.submissions.filter
            (fun x => x.assignmentId == a.id && x.userId == uid) }))
    | _, _ => (500, [])

/-- `POST /api/classrooms/:assignmentId/submit` (classRoomRoute.ts
868-899): 400 when multer attached no file, otherwise insert one
`Submission` row (grade defaults to 0). -/
def submitAssignment (s : Store) (assignmentId userId : Option Int)
    (file : Option ReqFile) (now : Int) : Nat × Store :=
  match file with
  | none => (400, s)
  | some f =>
    match assignmentId, userId with
    | some aid, some uid =>
      if hasAssignment s aid ∧ hasUser s uid then
        (201, { s with submissions := s.submissions ++
          [{ id := nextId (s.submissions.map (fun x => x.id)),
             assignmentId := aid, userId := uid, fileName := f.originalname,
             filePath := f.path, createdAt := now, grade := 0 }] })
      else (500, s)
    | _, _ => (500, s)

/-- `GET /api/classrooms/:assignmentId/submissions` (classRoomRoute.ts
901-920). -/
def listSubmissions (s : Store) (assignmentId : Int) : List Submission :=
  s.submissions.filter (fun x => x.assignmentId == assignmentId)

/-- `POST /api/posts` (postRoute.ts 8-26): no validation chain; missing
fields, a non-enum `postType` or a foreign-key miss make the insert
throw, answered with 500; otherwise one `Post` row is inserted. -/
def createPost (s : Store) (title content : Option String)
    (classRoomId authorId : Option Int) (postType : Option PostType) :
    Nat × Store :=
  match title, content, classRoomId, authorId, postType with
  | some t, some c, some cid, some aid, some pt =>
    if hasClass s cid ∧ hasUser s aid then
      (201, { s with posts := s.posts ++
        [{ id := nextId (s.posts.map (fun x => x.id)), title := t, content := c,
           classRoomId := cid, authorId := aid, postType := pt }] })
    else (500, s)
  | _, _, _, _, _ => (500, s)

/-- `GET /api/posts/:classRoomId/posts` (postRoute.ts 29-42). -/
def listPosts (s : Store) (classRoomId : Int) : List Post :=
  s.posts.filter (fun p => p.classRoomId == classRoomId)

/-- The members route with its validation chain (classRoomRoute.ts
419-447): 400 when the `classId` parameter fails `isInt({ gt: 0 })`,
otherwise the `listMembers` query. -/
def listMembersRoute (s : Store) (classId : Int) : Nat × List ClassMember :=
  if classId ≤ 0 then (400, []) else (200, listMembers s classId)

/-- The available-members route with its validation chain
(classRoomRoute.ts 489-539): 400 when either id parameter fails
`isInt({ gt: 0 })`, otherwise the `availableMembers` query. -/
def availableMembersRoute (s : Store) (classId currentUserId : Int) :
    Nat × List User :=
  if classId ≤ 0 ∨ currentUserId ≤ 0 then (400, [])
  else (200, availableMembers s classId currentUserId)

/-- The comments listing route with its validation chain
(classRoomRoute.ts 649-677): 400 when the `fileId` parameter fails
`isInt({ gt: 0 })`, otherwise the `listComments` query. -/
def listCommentsRoute (s : Store) (fileId : Int) : Nat × List Comment :=
  if fileId ≤ 0 then (400, []) else (200, listComments s fileId)

/-- Two member rows that agree on everything except possibly the role. -/
def SameExceptRole (a b : ClassMember) : Prop :=
  a.id = b.id ∧ a.userId = b.userId ∧ a.classId = b.classId

/-- The frame relation between a store and its successor: every table
keeps its existing rows as a prefix (new rows only appended), except
that member rows may additionally have their role changed in place. -/
def InsertOnly (s t : Store) : Prop :=
  (∃ l, t.users = s.users ++ l) ∧
  (∃ l, t.classRooms = s.classRooms ++ l) ∧
  (∃ l, t.posts = s.posts ++ l) ∧
  (∃ l, t.comments = s.comments ++ l) ∧
  (∃ l, t.fileUploads = s.fileUploads ++ l) ∧
  (∃ l, t.assignments = s.assignments ++ l) ∧
  (∃ l, t.assignmentTos = s.assignmentTos ++ l) ∧
  (∃ l, t.submissions = s.submissions ++ l) ∧
  (∃ pre l, t.classMembers = pre ++ l ∧
    List.Forall₂ SameExceptRole pre s.classMembers)

/-- The stronger frame relation for operations other than the role
update: member rows are only appended, roles untouched. -/
def InsertOnlyM (s t : Store) : Prop :=
  InsertOnly s t ∧ ∃ l, t.classMembers = s.classMembers ++ l

/-- One HTTP request to any route of the system, with its inputs. -/
inductive Op where
  | upload (file : Option ReqFile) (fileType : Option String)
      (userId classId : Option Int) (fileName : Option String)
      (protocol host : String) (now : Int)
  | newClassroom (name description creatorId : JsVal)
  | newMember (classId userId : JsVal) (roleBody : Option String)
  | newMemberSecond (classId userId : JsVal) (roleBody : Option String)
  | newComment (fileId : Option Int) (content : Option String)
      (authorId : Option Int)
  | setRole (classId userId : Option Int) (role : Option Role)
  | newAssignment (classId : Option Int) (title description : Option String)
      (createdBy fileId : Option Int) (now : Int)
  | submit (assignmentId userId : Option Int) (file : Option ReqFile)
      (now : Int)
  | newPost (title content : Option String) (classRoomId authorId : Option Int)
      (postType : Option PostType)
  | getFiles (classId : Int)
  | getClasses (userId : Int)
  | getMembers (classId : Int)
  | getAvailable (classId currentUserId : Int)
  | getComments (fileId : Int)
  | getAssignments (classId userId : String)
  | getSubmissions (assignmentId : Int)
  | getPosts (classRoomId : Int)

/-- Whether the operation is the role update (the only handler that
modifies an existing row). -/
def Op.changesRole : Op → Bool
  | Op.setRole _ _ _ => true
  | _ => false

/-- The store left behind by one request.  The GET handlers run only
`findMany` queries (`listFiles`, `listUserClasses`, `listMembers`,
`availableMembers`, `listComments`, `listAssignments`,
`listSubmissions`, `listPosts`) and leave the store as it is. -/
def applyOp (s : Store) : Op → Store
  | Op.upload file ft uid cid fn pr ho now =>
      (uploadFile s file ft uid cid fn pr ho now).2
  | Op.newClassroom n d c => (createClassroom s n d c).2.2
  | Op.newMember c u r => (addMember s c u r).2
  | Op.newMemberSecond c u r => (addMemberSecond s c u r).2
  | Op.newComment f c a => (addComment s f c a).2
  | Op.setRole c u r => (updateMemberRole s c u r).2
  | Op.newAssignment c t d cb f now => (createAssignment s c t d cb f now).2
  | Op.submit a u f now => (submitAssignment s a u f now).2
  | Op.newPost t c cid aid pt => (createPost s t c cid aid pt).2
  | Op.getFiles _ => s
  | Op.getClasses _ => s
  | Op.getMembers _ => s
  | Op.getAvailable _ _ => s
  | Op.getComments _ => s
  | Op.getAssignments _ _ => s
  | Op.getSubmissions _ => s
  | Op.getPosts _ => s

/-! ### A small concrete store used by witnesses and counterexamples -/

/-- A well-formed sample store: three users, one class whose creator
(user 1) is its admin and whose second member is user 2, one uploaded
file. -/
def demoStore : Store :=
  { users := [{ id := 1, name := "alice", email := "a@x", password := "p" },
              { id := 2, name := "bob", email := "b@x", password := "p" },
              { id := 3, name := "carol", email := "c@x", password := "p" }],
    classRooms := [{ id := 1, name := "Math101", description := some "intro",
                     createdBy := 1 }],
    classMembers := [{ id := 1, userId := 1, classId := 1, role := Role.ADMIN },
                     { id := 2, userId := 2, classId := 1, role := Role.NORMAL }],
    posts := [], comments := [],
    fileUploads := [{ id := 1, filePath := "h/public/1.pdf", fileType := "pdf",
                      userId := 1, classId := 1, fileName := "notes",
                      createdAt := 0 }],
    assignments := [], assignmentTos := [], submissions := [] }

/-! ### Helper lemmas -/

/-- Mapping a function that fixes every element of a list is the identity. -/
theorem map_id_of_eq {α : Type} (l : List α) (f : α → α)
    (h : ∀ x ∈ l, f x = x) : l.map f = l := by
  induction l with
  | nil => rfl
  | cons a t ih =>
      simp only [List.map_cons, h a (List.mem_cons_self a t),
        ih (fun x hx => h x (List.mem_cons_of_mem a hx))]

/-- `updateMemberRole` on a pair matching no member row answers 404 and
returns the store unchanged (the `updateMany` matched nothing). -/
theorem updateMemberRole_notFound (s : Store) (cid uid : Int) (r : Role)
    (h : ∀ m ∈ s.classMembers, ¬(m.classId = cid ∧ m.userId = uid)) :
    updateMemberRole s (some cid) (some uid) (some r) = (404, s) := by
  have hp : ∀ m ∈ s.classMembers,
      ¬((m.classId == cid && m.userId == uid) = true) := by
    intro m hm hb
    exact h m hm (by simpa using hb)
  have hfilter : s.classMembers.filter
      (fun m => m.classId == cid && m.userId == uid) = [] :=
    List.filter_eq_nil_iff.mpr hp
  have hmap : s.classMembers.map
      (fun m => if m.classId == cid && m.userId == uid then
        { m with role := r } else m) = s.classMembers :=
    map_id_of_eq _ _ (fun m hm => if_neg (hp m hm))
  simp only [updateMemberRole]
  rw [hfilter, hmap]
  rfl

/-- `createClassroom` answers 400 and leaves the store unchanged as soon
as one of the three validators fails. -/
theorem createClassroom_invalid (s : Store) (n d c : JsVal)
    (h : notEmptyString n = none ∨ notEmptyString d = none ∨ toPosInt c = none) :
    createClassroom s n d c = (400, none, s) := by
  unfold createClassroom
  rcases h with h | h | h
  · rw [h]
  · rw [h]; cases notEmptyString n <;> rfl
  · rw [h]; cases notEmptyString n <;> cases notEmptyString d <;> rfl

/-- `addComment` with an absent `authorId` (`Number(undefined)` is `NaN`,
the insert throws) answers 500 and leaves the store unchanged. -/
theorem addComment_noAuthor (s : Store) (fid : Option Int)
    (content : Option String) : addComment s fid content none = (500, s) := by
  unfold addComment
  cases fid <;> cases content <;> rfl

/-! ### C8 — upload without a file part -/

/-- C8: a request to `POST /api/classrooms/upload` carrying no file part
is answered with 400 and inserts no `FileUpload` row: the store is
returned unchanged. -/
theorem uploadFile_noFile_C8 (s : Store) (fileType : Option String)
    (userId classId : Option Int) (fileName : Option String)
    (protocol host : String) (now : Int) :
    uploadFile s none fileType userId classId fileName protocol host now
      = (400, s) := rfl

/-! ### C10 — the 401 branch of the assignments listing is unreachable -/

/-- C10: for any request reaching `GET /:classId/:userId/assignments`,
the `userId` path parameter is a non-empty string, so the guard
`if (!userId)` never fires: the handler answers 200 or 500, never 401. -/
theorem listAssignments_no401_C10 (s : Store) (classId userId : String)
    (h : userId ≠ "") :
    ((listAssignments s classId userId).1 = 200 ∨
      (listAssignments s classId userId).1 = 500) ∧
    (listAssignments s classId userId).1 ≠ 401 := by
  unfold listAssignments
  rw [if_neg h]
  cases jsNumber classId <;> cases jsNumber userId <;> simp

/-- Witness for C10 at a concrete request. -/
theorem listAssignments_no401_C10_witness :
    ((listAssignments demoStore "1" "2").1 = 200 ∨
      (listAssignments demoStore "1" "2").1 = 500) ∧
    (listAssignments demoStore "1" "2").1 ≠ 401 :=
  listAssignments_no401_C10 demoStore "1" "2" (by decide)

/-! ### C3 — the two add-member copies do not differ -/

/-- C3 counterexample: the claim says the second add-member variant
stores the caller-supplied role.  Supplying role `MODERATOR` on a valid
request, both copies insert role `NORMAL`, and their results coincide. -/
theorem addMember_C3_counterexample :
    addMemberSecond demoStore (JsVal.num 1) (JsVal.num 3) (some "MODERATOR") =
      addMember demoStore (JsVal.num 1) (JsVal.num 3) (some "MODERATOR") ∧
    ((addMemberSecond demoStore (JsVal.num 1) (JsVal.num 3)
        (some "MODERATOR")).2.classMembers.map (fun m => m.role)) =
      [Role.ADMIN, Role.NORMAL, Role.NORMAL] := by
  constructor
  · rfl
  · decide

/-- C3 amended: the two duplicated add-member routes are the same
function; whatever role the caller supplies, each inserted member row
has role `NORMAL` (the body's `role` field is never read). -/
theorem addMember_C3_amended (s : Store) (classId userId : JsVal)
    (roleBody : Option String) :
    addMember s classId userId roleBody
      = addMemberSecond s classId userId roleBody ∧
    ∃ l, (addMember s classId userId roleBody).2.classMembers
        = s.classMembers ++ l ∧ ∀ m ∈ l, m.role = Role.NORMAL := by
  refine ⟨rfl, ?_⟩
  unfold addMember
  cases toPosInt classId with
  | none => exact ⟨[], by simp⟩
  | some cid =>
    cases toPosInt userId with
    | none => exact ⟨[], by simp⟩
    | some uid =>
      dsimp only
      split
      · exact ⟨[{ id := nextId (s.classMembers.map (fun m => m.id)),
                  userId := uid, classId := cid, role := Role.NORMAL }],
               rfl, by intro m hm; simp at hm; rw [hm]⟩
      · exact ⟨[], by simp⟩

/-! ### C6 — the uniform failure pattern does not cover unvalidated handlers -/

/-- C6 counterexample: a comment request missing its `authorId` is
malformed input, yet the handler answers 500, not 400 — the insert
throws on `NaN` and the `catch` block answers 500. -/
theorem errorPattern_C6_counterexample :
    addComment demoStore (some 1) (some "nice") none = (500, demoStore) ∧
    (500 : Nat) ≠ 400 :=
  ⟨addComment_noAuthor demoStore (some 1) (some "nice"), by decide⟩

/-- Either add-member copy answers 400 and leaves the store unchanged
when one of its two validators fails. -/
theorem addMember_invalid (s : Store) (c u : JsVal) (r : Option String)
    (h : toPosInt c = none ∨ toPosInt u = none) :
    addMember s c u r = (400, s) := by
  unfold addMember
  rcases h with h | h
  · rw [h]
  · rw [h]; cases toPosInt c <;> rfl

/-- The second add-member copy's validators behave the same way. -/
theorem addMemberSecond_invalid (s : Store) (c u : JsVal) (r : Option String)
    (h : toPosInt c = none ∨ toPosInt u = none) :
    addMemberSecond s c u r = (400, s) := by
  unfold addMemberSecond
  rcases h with h | h
  · rw [h]
  · rw [h]; cases toPosInt c <;> rfl

/-- `addComment` answers 500 with the store unchanged when any of its
unvalidated inputs is malformed (the insert throws). -/
theorem addComment_malformed (s : Store) (fid : Option Int)
    (content : Option String) (aid : Option Int)
    (h : fid = none ∨ content = none ∨ aid = none) :
    addComment s fid content aid = (500, s) := by
  unfold addComment
  rcases h with rfl | rfl | rfl
  · rfl
  · cases fid <;> rfl
  · cases fid <;> cases content <;> rfl

/-- `updateMemberRole` answers 500 with the store unchanged when an id
fails `Number(...)` or the role is not an enum value (the query throws). -/
theorem updateMemberRole_malformed (s : Store) (cid uid : Option Int)
    (r : Option Role) (h : cid = none ∨ uid = none ∨ r = none) :
    updateMemberRole s cid uid r = (500, s) := by
  unfold updateMemberRole
  rcases h with rfl | rfl | rfl
  · rfl
  · cases cid <;> rfl
  · cases cid <;> cases uid <;> rfl

/-- `createPost` answers 500 with the store unchanged when any required
body field is missing or of the wrong type (the insert throws). -/
theorem createPost_malformed (s : Store) (t c : Option String)
    (cid aid : Option Int) (pt : Option PostType)
    (h : t = none ∨ c = none ∨ cid = none ∨ aid = none ∨ pt = none) :
    createPost s t c cid aid pt = (500, s) := by
  unfold createPost
  rcases h with rfl | rfl | rfl | rfl | rfl
  · rfl
  · cases t <;> rfl
  · cases t <;> cases c <;> rfl
  · cases t <;> cases c <;> cases cid <;> rfl
  · cases t <;> cases c <;> cases cid <;> cases aid <;> rfl

/-- `createAssignment` answers 500 with the store unchanged when the
class id, title, creator or file id is missing or unparsable (the
insert throws before anything is written). -/
theorem createAssignment_malformed (s : Store) (cid : Option Int)
    (t d : Option String) (cb f : Option Int) (now : Int)
    (h : cid = none ∨ t = none ∨ cb = none ∨ f = none) :
    createAssignment s cid t d cb f now = (500, s) := by
  unfold createAssignment
  rcases h with rfl | rfl | rfl | rfl
  · rfl
  · cases cid <;> rfl
  · cases cid <;> cases t <;> rfl
  · cases cid <;> cases t <;> cases cb <;> rfl

/-- `uploadFile` with a file attached but a malformed metadata field
answers 500 with the store unchanged (the insert throws). -/
theorem uploadFile_malformed (s : Store) (f : ReqFile)
    (ft : Option String) (uid cid : Option Int) (fn : Option String)
    (pr ho : String) (now : Int)
    (h : ft = none ∨ uid = none ∨ cid = none ∨ fn = none) :
    uploadFile s (some f) ft uid cid fn pr ho now = (500, s) := by
  unfold uploadFile
  dsimp only
  rcases h with rfl | rfl | rfl | rfl
  · rfl
  · cases ft <;> rfl
  · cases ft <;> cases uid <;> rfl
  · cases ft <;> cases uid <;> cases cid <;> rfl

/-- `submitAssignment` with a file attached but an unparsable id answers
500 with the store unchanged (the insert throws). -/
theorem submitAssignment_malformed (s : Store) (aid uid : Option Int)
    (f : ReqFile) (now : Int) (h : aid = none ∨ uid = none) :
    submitAssignment s aid uid (some f) now = (500, s) := by
  unfold submitAssignment
  dsimp only
  rcases h with rfl | rfl
  · rfl
  · cases aid <;> rfl

/-- `GET /:userId/classes` answers 400 when its validator fails. -/
theorem listUserClasses_invalid (s : Store) (uid : Int) (h : uid ≤ 0) :
    listUserClasses s uid = (400, []) := by
  unfold listUserClasses
  rw [if_pos h]

/-- C6 amended: the failure pattern holds per handler class.  Every
handler with an express-validator chain (create classroom, both
add-member copies, the user-classes, members, available-members and
comments listings) answers malformed input with 400 and touches
nothing; update-member-role answers a missing update target with 404;
but the handlers without validation chains (add comment,
update-member-role, create post, create assignment, and the metadata
steps of upload and submit) hand malformed input to the store and
answer its failure with 500, not 400, the store unchanged. -/
theorem errorPattern_C6_amended :
    (∀ (s : Store) (n d c : JsVal),
      (notEmptyString n = none ∨ notEmptyString d = none ∨ toPosInt c = none) →
        createClassroom s n d c = (400, none, s)) ∧
    (∀ (s : Store) (c u : JsVal) (r : Option String),
      (toPosInt c = none ∨ toPosInt u = none) →
        addMember s c u r = (400, s)) ∧
    (∀ (s : Store) (c u : JsVal) (r : Option String),
      (toPosInt c = none ∨ toPosInt u = none) →
        addMemberSecond s c u r = (400, s)) ∧
    (∀ (s : Store) (uid : Int), uid ≤ 0 →
      listUserClasses s uid = (400, [])) ∧
    (∀ (s : Store) (cid : Int), cid ≤ 0 →
      listMembersRoute s cid = (400, [])) ∧
    (∀ (s : Store) (cid cur : Int), cid ≤ 0 ∨ cur ≤ 0 →
      availableMembersRoute s cid cur = (400, [])) ∧
    (∀ (s : Store) (fid : Int), fid ≤ 0 →
      listCommentsRoute s fid = (400, [])) ∧
    (∀ (s : Store) (cid uid : Int) (r : Role),
      (∀ m ∈ s.classMembers, ¬(m.classId = cid ∧ m.userId = uid)) →
        updateMemberRole s (some cid) (some uid) (some r) = (404, s)) ∧
    (∀ (s : Store) (fid : Option Int) (content : Option String)
        (aid : Option Int), (fid = none ∨ content = none ∨ aid = none) →
      addComment s fid content aid = (500, s)) ∧
    (∀ (s : Store) (cid uid : Option Int) (r : Option Role),
      (cid = none ∨ uid = none ∨ r = none) →
        updateMemberRole s cid uid r = (500, s)) ∧
    (∀ (s : Store) (t c : Option String) (cid aid : Option Int)
        (pt : Option PostType),
      (t = none ∨ c = none ∨ cid = none ∨ aid = none ∨ pt = none) →
        createPost s t c cid aid pt = (500, s)) ∧
    (∀ (s : Store) (cid : Option Int) (t d : Option String)
        (cb f : Option Int) (now : Int),
      (cid = none ∨ t = none ∨ cb = none ∨ f = none) →
        createAssignment s cid t d cb f now = (500, s)) ∧
    (∀ (s : Store) (f : ReqFile) (ft : Option String) (uid cid : Option Int)
        (fn : Option String) (pr ho : String) (now : Int),
      (ft = none ∨ uid = none ∨ cid = none ∨ fn = none) →
        uploadFile s (some f) ft uid cid fn pr ho now = (500, s)) ∧
    (∀ (s : Store) (aid uid : Option Int) (f : ReqFile) (now : Int),
      (aid = none ∨ uid = none) →
        submitAssignment s aid uid (some f) now = (500, s)) :=
  ⟨createClassroom_invalid, addMember_invalid, addMemberSecond_invalid,
   listUserClasses_invalid,
   fun s cid h => by unfold listMembersRoute; rw [if_pos h],
   fun s cid cur h => by unfold availableMembersRoute; rw [if_pos h],
   fun s fid h => by unfold listCommentsRoute; rw [if_pos h],
   updateMemberRole_notFound, addComment_malformed,
   updateMemberRole_malformed, createPost_malformed,
   createAssignment_malformed, uploadFile_malformed,
   submitAssignment_malformed⟩

/-- Witness for the amended C6, one concrete request per clause. -/
theorem errorPattern_C6_amended_witness :
    createClassroom demoStore (JsVal.str "") (JsVal.str "d") (JsVal.num 1)
      = (400, none, demoStore) ∧
    addMember demoStore JsVal.undef (JsVal.num 2) none = (400, demoStore) ∧
    addMemberSecond demoStore JsVal.undef (JsVal.num 2) none
      = (400, demoStore) ∧
    listUserClasses demoStore 0 = (400, []) ∧
    listMembersRoute demoStore 0 = (400, []) ∧
    availableMembersRoute demoStore 0 1 = (400, []) ∧
    listCommentsRoute demoStore 0 = (400, []) ∧
    updateMemberRole demoStore (some 9) (some 9) (some Role.NORMAL)
      = (404, demoStore) ∧
    addComment demoStore (some 1) (some "x") none = (500, demoStore) ∧
    updateMemberRole demoStore (some 1) (some 2) none = (500, demoStore) ∧
    createPost demoStore (some "t") none (some 1) (some 1)
      (some PostType.MESSAGE) = (500, demoStore) ∧
    createAssignment demoStore none (some "t") none (some 1) (some 1) 0
      = (500, demoStore) ∧
    uploadFile demoStore (some (ReqFile.mk "a.pdf" "p")) none (some 1)
      (some 1) (some "a") "http" "h" 7 = (500, demoStore) ∧
    submitAssignment demoStore none (some 1) (some (ReqFile.mk "a.pdf" "p")) 7
      = (500, demoStore) := by
  have h := errorPattern_C6_amended
  obtain ⟨h1, h2, h3, h4, h5, h6, h7, h8, h9, h10, h11, h12, h13, h14⟩ := h
  exact ⟨h1 demoStore _ _ _ (Or.inl rfl),
    h2 demoStore _ _ _ (Or.inl rfl),
    h3 demoStore _ _ _ (Or.inl rfl),
    h4 demoStore 0 (by decide),
    h5 demoStore 0 (by decide),
    h6 demoStore 0 1 (Or.inl (by decide)),
    h7 demoStore 0 (by decide),
    h8 demoStore 9 9 Role.NORMAL (by decide),
    h9 demoStore _ _ _ (Or.inr (Or.inr rfl)),
    h10 demoStore _ _ _ (Or.inr (Or.inr rfl)),
    h11 demoStore _ _ _ _ _ (Or.inr (Or.inl rfl)),
    h12 demoStore _ _ _ _ _ 0 (Or.inl rfl),
    h13 demoStore _ _ _ _ _ "http" "h" 7 (Or.inl rfl),
    h14 demoStore _ _ _ 7 (Or.inl rfl)⟩

/-! ### C2 — creating a classroom inserts one room and one ADMIN membership -/

/-- A value passing `isInt({ gt: 0 })` is positive. -/
theorem toPosInt_pos (v : JsVal) (n : Int) (h : toPosInt v = some n) : 0 < n := by
  unfold toPosInt at h
  cases v with
  | num m =>
    dsimp only at h
    by_cases hm : 0 < m
    · rw [if_pos hm] at h; obtain rfl := Option.some.inj h; exact hm
    · rw [if_neg hm] at h; simp at h
  | str s =>
    dsimp only at h
    cases hx : s.toInt? with
    | none => rw [hx] at h; simp at h
    | some m =>
      rw [hx] at h
      dsimp only at h
      by_cases hm : 0 < m
      · rw [if_pos hm] at h; obtain rfl := Option.some.inj h; exact hm
      · rw [if_neg hm] at h; simp at h
  | undef => simp at h

/-- C2: a `POST /api/classrooms` request that passes validation and
succeeds inserts exactly one `ClassRoom` row carrying the given name,
description and creator, and atomically with it exactly one
`ClassMember` row for the creator with role `ADMIN`; no other
membership row and no other row of any table is created. -/
theorem createClassroom_C2 (s : Store) (n d c : JsVal)
    (h : (createClassroom s n d c).1 = 201) :
    ∃ nm ds cid room mem,
      notEmptyString n = some nm ∧ notEmptyString d = some ds ∧
      toPosInt c = some cid ∧
      (createClassroom s n d c).2.2.classRooms = s.classRooms ++ [room] ∧
      room.name = nm ∧ room.description = some ds ∧ room.createdBy = cid ∧
      (createClassroom s n d c).2.2.classMembers = s.classMembers ++ [mem] ∧
      mem.userId = cid ∧ mem.classId = room.id ∧ mem.role = Role.ADMIN ∧
      (createClassroom s n d c).2.2.users = s.users ∧
      (createClassroom s n d c).2.2.posts = s.posts ∧
      (createClassroom s n d c).2.2.comments = s.comments ∧
      (createClassroom s n d c).2.2.fileUploads = s.fileUploads ∧
      (createClassroom s n d c).2.2.assignments = s.assignments ∧
      (createClassroom s n d c).2.2.assignmentTos = s.assignmentTos ∧
      (createClassroom s n d c).2.2.submissions = s.submissions := by
  unfold createClassroom at h ⊢
  cases hn : notEmptyString n with
  | none => rw [hn] at h; simp at h
  | some nm =>
    cases hd : notEmptyString d with
    | none => rw [hn, hd] at h; simp at h
    | some ds =>
      cases hc : toPosInt c with
      | none => rw [hn, hd, hc] at h; simp at h
      | some cid =>
        rw [hn, hd, hc] at h
        dsimp only at h ⊢
        by_cases hu : hasUser s cid = true
        · rw [if_pos hu]
          exact ⟨nm, ds, cid, _, _, rfl, rfl, rfl, rfl, rfl, rfl, rfl, rfl,
            rfl, rfl, rfl, rfl, rfl, rfl, rfl, rfl, rfl, rfl⟩
        · rw [if_neg hu] at h; simp at h

/-- Witness for C2 at a concrete successful request. -/
theorem createClassroom_C2_witness :
    ∃ nm ds cid room mem,
      notEmptyString (JsVal.str "Sci") = some nm ∧
      notEmptyString (JsVal.str "lab") = some ds ∧
      toPosInt (JsVal.num 2) = some cid ∧
      (createClassroom demoStore (JsVal.str "Sci") (JsVal.str "lab")
        (JsVal.num 2)).2.2.classRooms = demoStore.classRooms ++ [room] ∧
      room.name = nm ∧ room.description = some ds ∧ room.createdBy = cid ∧
      (createClassroom demoStore (JsVal.str "Sci") (JsVal.str "lab")
        (JsVal.num 2)).2.2.classMembers = demoStore.classMembers ++ [mem] ∧
      mem.userId = cid ∧ mem.classId = room.id ∧ mem.role = Role.ADMIN ∧
      (createClassroom demoStore (JsVal.str "Sci") (JsVal.str "lab")
        (JsVal.num 2)).2.2.users = demoStore.users ∧
      (createClassroom demoStore (JsVal.str "Sci") (JsVal.str "lab")
        (JsVal.num 2)).2.2.posts = demoStore.posts ∧
      (createClassroom demoStore (JsVal.str "Sci") (JsVal.str "lab")
        (JsVal.num 2)).2.2.comments = demoStore.comments ∧
      (createClassroom demoStore (JsVal.str "Sci") (JsVal.str "lab")
        (JsVal.num 2)).2.2.fileUploads = demoStore.fileUploads ∧
      (createClassroom demoStore (JsVal.str "Sci") (JsVal.str "lab")
        (JsVal.num 2)).2.2.assignments = demoStore.assignments ∧
      (createClassroom demoStore (JsVal.str "Sci") (JsVal.str "lab")
        (JsVal.num 2)).2.2.assignmentTos = demoStore.assignmentTos ∧
      (createClassroom demoStore (JsVal.str "Sci") (JsVal.str "lab")
        (JsVal.num 2)).2.2.submissions = demoStore.submissions :=
  createClassroom_C2 demoStore (JsVal.str "Sci") (JsVal.str "lab")
    (JsVal.num 2) (by decide)

/-! ### C5 — update-member-role: 404 on a missing pair, 200 otherwise -/

/-- C5: when no `ClassMember` row matches `(classId, userId)`, the
update-member-role handler answers 404 with the store completely
unchanged; when at least one row matches, it answers 200 and sets the
role of exactly the matching rows, touching nothing else. -/
theorem updateMemberRole_C5 (s : Store) (cid uid : Int) (r : Role) :
    ((∀ m ∈ s.classMembers, ¬(m.classId = cid ∧ m.userId = uid)) →
      updateMemberRole s (some cid) (some uid) (some r) = (404, s)) ∧
    ((∃ m ∈ s.classMembers, m.classId = cid ∧ m.userId = uid) →
      (updateMemberRole s (some cid) (some uid) (some r)).1 = 200 ∧
      List.Forall₂ (fun a b => a.id = b.id ∧ a.userId = b.userId ∧
          a.classId = b.classId ∧
          a.role = if b.classId = cid ∧ b.userId = uid then r else b.role)
        (updateMemberRole s (some cid) (some uid) (some r)).2.classMembers
        s.classMembers ∧
      (updateMemberRole s (some cid) (some uid) (some r)).2.users = s.users ∧
      (updateMemberRole s (some cid) (some uid) (some r)).2.classRooms
        = s.classRooms ∧
      (updateMemberRole s (some cid) (some uid) (some r)).2.posts = s.posts ∧
      (updateMemberRole s (some cid) (some uid) (some r)).2.comments
        = s.comments ∧
      (updateMemberRole s (some cid) (some uid) (some r)).2.fileUploads
        = s.fileUploads ∧
      (updateMemberRole s (some cid) (some uid) (some r)).2.assignments
        = s.assignments ∧
      (updateMemberRole s (some cid) (some uid) (some r)).2.assignmentTos
        = s.assignmentTos ∧
      (updateMemberRole s (some cid) (some uid) (some r)).2.submissions
        = s.submissions) := by
  constructor
  · exact updateMemberRole_notFound s cid uid r
  · intro hex
    obtain ⟨m, hm, hmm⟩ := hex
    have hmem : m ∈ s.classMembers.filter
        (fun x => x.classId == cid && x.userId == uid) :=
      List.mem_filter.mpr ⟨hm, by simp [hmm.1, hmm.2]⟩
    have hcount : ¬(((s.classMembers.filter
        (fun x => x.classId == cid && x.userId == uid)).length == 0) = true) := by
      simp only [beq_iff_eq, List.length_eq_zero]
      intro hnil
      rw [hnil] at hmem
      exact absurd hmem (List.not_mem_nil m)
    have key : updateMemberRole s (some cid) (some uid) (some r)
        = (200, { s with classMembers := (s.classMembers.map (fun x =>
            if x.classId == cid && x.userId == uid then
              { x with role := r } else x)) }) := by
      simp only [updateMemberRole]
      rw [if_neg hcount]
    rw [key]
    refine ⟨rfl, ?_, rfl, rfl, rfl, rfl, rfl, rfl, rfl, rfl⟩
    rw [List.forall₂_map_left_iff]
    apply List.forall₂_same.mpr
    intro x hx
    by_cases hb : x.classId = cid ∧ x.userId = uid
    · have hbool : (x.classId == cid && x.userId == uid) = true := by
        simp [hb.1, hb.2]
      rw [if_pos hbool, if_pos hb]
      exact ⟨rfl, rfl, rfl, rfl⟩
    · have hbool : ¬((x.classId == cid && x.userId == uid) = true) := by
        simpa using hb
      rw [if_neg hbool, if_neg hb]
      exact ⟨rfl, rfl, rfl, rfl⟩

/-- Witness for C5 at a concrete matching pair. -/
theorem updateMemberRole_C5_witness :
    (updateMemberRole demoStore (some 1) (some 2)
      (some Role.MODERATOR)).1 = 200 ∧
    List.Forall₂ (fun a b => a.id = b.id ∧ a.userId = b.userId ∧
        a.classId = b.classId ∧
        a.role = if b.classId = 1 ∧ b.userId = 2 then Role.MODERATOR
          else b.role)
      (updateMemberRole demoStore (some 1) (some 2)
        (some Role.MODERATOR)).2.classMembers demoStore.classMembers ∧
    (updateMemberRole demoStore (some 1) (some 2)
      (some Role.MODERATOR)).2.users = demoStore.users ∧
    (updateMemberRole demoStore (some 1) (some 2)
      (some Role.MODERATOR)).2.classRooms = demoStore.classRooms ∧
    (updateMemberRole demoStore (some 1) (some 2)
      (some Role.MODERATOR)).2.posts = demoStore.posts ∧
    (updateMemberRole demoStore (some 1) (some 2)
      (some Role.MODERATOR)).2.comments = demoStore.comments ∧
    (updateMemberRole demoStore (some 1) (some 2)
      (some Role.MODERATOR)).2.fileUploads = demoStore.fileUploads ∧
    (updateMemberRole demoStore (some 1) (some 2)
      (some Role.MODERATOR)).2.assignments = demoStore.assignments ∧
    (updateMemberRole demoStore (some 1) (some 2)
      (some Role.MODERATOR)).2.assignmentTos = demoStore.assignmentTos ∧
    (updateMemberRole demoStore (some 1) (some 2)
      (some Role.MODERATOR)).2.submissions = demoStore.submissions :=
  (updateMemberRole_C5 demoStore 1 2 Role.MODERATOR).2
    ⟨{ id := 2, userId := 2, classId := 1, role := Role.NORMAL },
      by decide, by decide⟩

/-! ### C7 — round trip: the created classroom is listed for its creator -/

/-- C7: after a successful `POST /api/classrooms`, a `GET
/:userId/classes` for the creator lists the new classroom. -/
theorem roundTrip_C7 (s : Store) (n d c : JsVal)
    (h : (createClassroom s n d c).1 = 201) :
    ∀ room, (createClassroom s n d c).2.1 = some room →
      room ∈ (listUserClasses (createClassroom s n d c).2.2
        room.createdBy).2 := by
  unfold createClassroom at h ⊢
  cases hn : notEmptyString n with
  | none => rw [hn] at h; simp at h
  | some nm =>
    cases hd : notEmptyString d with
    | none => rw [hn, hd] at h; simp at h
    | some ds =>
      cases hc : toPosInt c with
      | none => rw [hn, hd, hc] at h; simp at h
      | some cid =>
        have hpos : 0 < cid := toPosInt_pos c cid hc
        rw [hn, hd, hc] at h
        dsimp only at h ⊢
        by_cases hu : hasUser s cid = true
        · rw [if_pos hu]
          intro room hroom
          obtain rfl := Option.some.inj hroom
          unfold listUserClasses
          rw [if_neg (by omega : ¬((cid : Int) ≤ 0))]
          dsimp only
          apply List.mem_filter.mpr
          refine ⟨by simp, ?_⟩
          apply List.any_eq_true.mpr
          refine ⟨{ id := nextId (s.classMembers.map (fun m => m.id)),
                    userId := cid,
                    classId := nextId (s.classRooms.map (fun x => x.id)),
                    role := Role.ADMIN }, by simp, by simp⟩
        · rw [if_neg hu] at h; simp at h

/-- Witness for C7 at a concrete successful creation: the new room with
id 2, created by user 2, appears in user 2's class listing. -/
theorem roundTrip_C7_witness :
    ClassRoom.mk 2 "Sci" (some "lab") 2
      ∈ (listUserClasses (createClassroom demoStore (JsVal.str "Sci")
        (JsVal.str "lab") (JsVal.num 2)).2.2 2).2 :=
  roundTrip_C7 demoStore (JsVal.str "Sci") (JsVal.str "lab") (JsVal.num 2)
    (by decide) (ClassRoom.mk 2 "Sci" (some "lab") 2) (by decide)

/-! ### C1 — assignment creation fans out to every other member -/

/-- The fan-out rows are one per member row. -/
theorem fanout_length (aid now : Int) (ms : List ClassMember) :
    ∀ base, (fanout aid now base ms).length = ms.length := by
  induction ms with
  | nil => intro base; rfl
  | cons m t ih => intro base; simp [fanout, ih (base + 1)]

/-- The fan-out rows carry exactly the member rows' user ids, in order. -/
theorem fanout_map_userId (aid now : Int) (ms : List ClassMember) :
    ∀ base, (fanout aid now base ms).map (fun x => x.userId)
      = ms.map (fun m => m.userId) := by
  induction ms with
  | nil => intro base; rfl
  | cons m t ih => intro base; simp [fanout, ih (base + 1)]

/-- Every fan-out row carries the new assignment's id. -/
theorem fanout_assignmentId (aid now : Int) (ms : List ClassMember) :
    ∀ base, ∀ x ∈ fanout aid now base ms, x.assignmentId = aid := by
  induction ms with
  | nil => intro base x hx; simp [fanout] at hx
  | cons m t ih =>
      intro base x hx
      rw [fanout] at hx
      rcases List.mem_cons.mp hx with h | h
      · rw [h]
      · exact ih (base + 1) x h

/-- C1: a successful `POST /:classId/assignments` inserts exactly one
`Assignment` row and, for the `N` member rows of the class whose user
differs from the creator, exactly `N` `AssignmentAssignmentTo` rows —
one per such member, each carrying the new assignment's id and that
member's user id. -/
theorem createAssignment_C1 (s : Store) (cid : Int) (t : String)
    (d : Option String) (cb f now : Int)
    (h : (createAssignment s (some cid) (some t) d (some cb) (some f)
      now).1 = 201) :
    ∃ a : Assignment, ∃ tos,
      (createAssignment s (some cid) (some t) d (some cb) (some f)
        now).2.assignments = s.assignments ++ [a] ∧
      (createAssignment s (some cid) (some t) d (some cb) (some f)
        now).2.assignmentTos = s.assignmentTos ++ tos ∧
      tos.length = (s.classMembers.filter
        (fun m => m.classId == cid && m.userId != cb)).length ∧
      tos.map (fun x => x.userId) = (s.classMembers.filter
        (fun m => m.classId == cid && m.userId != cb)).map
          (fun m => m.userId) ∧
      ∀ x ∈ tos, x.assignmentId = a.id := by
  unfold createAssignment at h ⊢
  dsimp only at h ⊢
  by_cases hfk : hasClass s cid = true ∧ hasUser s cb = true ∧
      hasFile s f = true
  · rw [if_pos hfk] at h ⊢
    by_cases hall : (s.classMembers.filter
        (fun m => m.classId == cid && m.userId != cb)).all
          (fun m => hasUser s m.userId) = true
    · rw [if_pos hall]
      exact ⟨_, _, rfl, rfl,
        fanout_length _ now _ _,
        fanout_map_userId _ now _ _,
        fanout_assignmentId _ now _ _⟩
    · rw [if_neg hall] at h; simp at h
  · rw [if_neg hfk] at h; simp at h

/-- Witness for C1 at a concrete successful request: class 1 of the
sample store has one member besides the creator, so one fan-out row. -/
theorem createAssignment_C1_witness :
    ∃ a : Assignment, ∃ tos,
      (createAssignment demoStore (some 1) (some "hw") none (some 1)
        (some 1) 5).2.assignments = demoStore.assignments ++ [a] ∧
      (createAssignment demoStore (some 1) (some "hw") none (some 1)
        (some 1) 5).2.assignmentTos = demoStore.assignmentTos ++ tos ∧
      tos.length = (demoStore.classMembers.filter
        (fun m => m.classId == 1 && m.userId != 1)).length ∧
      tos.map (fun x => x.userId) = (demoStore.classMembers.filter
        (fun m => m.classId == 1 && m.userId != 1)).map
          (fun m => m.userId) ∧
      ∀ x ∈ tos, x.assignmentId = a.id :=
  createAssignment_C1 demoStore 1 "hw" none 1 1 5 (by decide)

/-! ### C4 — available members exclude the caller and the class members -/

/-- `Array.includes`-style containment test as a decidable membership. -/
theorem contains_eq_decide_mem (l : List Int) (a : Int) :
    l.contains a = decide (a ∈ l) := by
  simp [List.contains]

/-- Filtering through a projection preserves the count of survivors. -/
theorem length_filter_map_eq {α β : Type} (f : α → β) (q : β → Bool)
    (l : List α) :
    (l.filter (fun a => q (f a))).length = ((l.map f).filter q).length := by
  induction l with
  | nil => rfl
  | cons a t ih =>
      cases hq : q (f a) <;>
        simp [List.filter_cons, List.map_cons, hq, ih]

/-- C4: the available-members listing never contains the current user
nor any user with a member row of the class, and on a store with
well-formed ids (distinct user ids, member rows referencing existing
users, no duplicate membership in the class) its size is the number of
users minus one minus the number of members other than the current
user. -/
theorem availableMembers_C4 (s : Store) (cid cur : Int)
    (h1 : (s.users.map (fun u => u.id)).Nodup)
    (h2 : cur ∈ s.users.map (fun u => u.id))
    (h3 : (memberIdsOf s cid).Nodup)
    (h4 : ∀ i ∈ memberIdsOf s cid, i ∈ s.users.map (fun u => u.id)) :
    (∀ u ∈ availableMembers s cid cur,
      u.id ≠ cur ∧ ∀ m ∈ s.classMembers, m.classId = cid → m.userId ≠ u.id) ∧
    (availableMembers s cid cur).length
      = s.users.length - 1
        - ((memberIdsOf s cid).filter (fun i => i != cur)).length := by
  constructor
  · intro u hu
    unfold availableMembers at hu
    simp only [List.mem_filter, Bool.not_eq_true', Bool.and_eq_true,
      bne_iff_ne, ne_eq, contains_eq_decide_mem, decide_eq_false_iff_not]
      at hu
    obtain ⟨⟨hu1, hu2⟩, hu3⟩ := hu
    refine ⟨hu2, ?_⟩
    intro m hm hmc heq
    exact hu3 (List.mem_map.mpr ⟨m,
      List.mem_filter.mpr ⟨hm, by simp [hmc]⟩, heq⟩)
  · have hcomb : availableMembers s cid cur
        = s.users.filter (fun u =>
            (!((memberIdsOf s cid).contains u.id)) && (u.id != cur)) := by
      unfold availableMembers
      rw [List.filter_filter]
    have hlen1 : (availableMembers s cid cur).length
        = ((s.users.map (fun u => u.id)).filter (fun i =>
            (!((memberIdsOf s cid).contains i)) && (i != cur))).length := by
      rw [hcomb]
      exact length_filter_map_eq (fun u => u.id)
        (fun i => (!((memberIdsOf s cid).contains i)) && (i != cur)) s.users
    have hnd : ((s.users.map (fun u => u.id)).filter (fun i =>
        (!((memberIdsOf s cid).contains i)) && (i != cur))).Nodup :=
      List.Nodup.filter _ h1
    have hfin2 : ((s.users.map (fun u => u.id)).filter (fun i =>
        (!((memberIdsOf s cid).contains i)) && (i != cur))).toFinset
        = (s.users.map (fun u => u.id)).toFinset \
            insert cur (memberIdsOf s cid).toFinset := by
      ext i
      simp only [List.mem_toFinset, List.mem_filter, Finset.mem_sdiff,
        Finset.mem_insert, Bool.and_eq_true, Bool.not_eq_true',
        bne_iff_ne, ne_eq, contains_eq_decide_mem, decide_eq_false_iff_not]
      tauto
    have hsub : insert cur (memberIdsOf s cid).toFinset
        ⊆ (s.users.map (fun u => u.id)).toFinset := by
      intro i hi
      rcases Finset.mem_insert.mp hi with rfl | hi
      · exact List.mem_toFinset.mpr h2
      · exact List.mem_toFinset.mpr (h4 i (List.mem_toFinset.mp hi))
    have hinsert : insert cur (memberIdsOf s cid).toFinset
        = insert cur ((memberIdsOf s cid).toFinset.erase cur) := by
      ext i
      simp only [Finset.mem_insert, Finset.mem_erase, ne_eq]
      constructor
      · rintro (rfl | hi)
        · exact Or.inl rfl
        · by_cases hic : i = cur
          · exact Or.inl hic
          · exact Or.inr ⟨hic, hi⟩
      · rintro (rfl | ⟨hic, hi⟩)
        · exact Or.inl rfl
        · exact Or.inr hi
    have hI : (s.users.map (fun u => u.id)).toFinset.card
        = s.users.length := by
      rw [List.toFinset_card_of_nodup h1, List.length_map]
    have hM : ((memberIdsOf s cid).filter (fun i => i != cur)).length
        = ((memberIdsOf s cid).toFinset.erase cur).card := by
      rw [← List.toFinset_card_of_nodup (List.Nodup.filter _ h3)]
      congr 1
      ext i
      simp only [List.mem_toFinset, List.mem_filter, Finset.mem_erase,
        bne_iff_ne, ne_eq]
      tauto
    have hmain : (availableMembers s cid cur).length
        = s.users.length
          - (((memberIdsOf s cid).toFinset.erase cur).card + 1) := by
      rw [hlen1, ← List.toFinset_card_of_nodup hnd, hfin2,
        Finset.card_sdiff hsub, hI, hinsert,
        Finset.card_insert_of_not_mem (Finset.not_mem_erase cur _)]
    rw [hmain, hM]
    omega

/-- Witness for C4 on the sample store: user 1 is the current user and a
member; the only available user is user 3. -/
theorem availableMembers_C4_witness :
    (∀ u ∈ availableMembers demoStore 1 1,
      u.id ≠ 1 ∧ ∀ m ∈ demoStore.classMembers,
        m.classId = 1 → m.userId ≠ u.id) ∧
    (availableMembers demoStore 1 1).length
      = demoStore.users.length - 1
        - ((memberIdsOf demoStore 1).filter (fun i => i != 1)).length :=
  availableMembers_C4 demoStore 1 1 (by decide) (by decide) (by decide)
    (by decide)

/-! ### C9 — frame property: inserts only, role the only mutable field -/

/-- `SameExceptRole` is reflexive along a list. -/
theorem forall₂_sameExceptRole_refl (l : List ClassMember) :
    List.Forall₂ SameExceptRole l l :=
  List.forall₂_same.mpr (fun x _ => ⟨rfl, rfl, rfl⟩)

/-- Appending rows to any tables is an insert-only step. -/
theorem insertOnlyM_append (s : Store) (l1 : List User) (l2 : List ClassRoom)
    (l3 : List Post) (l4 : List Comment) (l5 : List FileUpload)
    (l6 : List Assignment) (l7 : List AssignmentAssignmentTo)
    (l8 : List Submission) (l9 : List ClassMember) :
    InsertOnlyM s
      { users := s.users ++ l1,
        classRooms := s.classRooms ++ l2,
        classMembers := s.classMembers ++ l9,
        posts := s.posts ++ l3,
        comments := s.comments ++ l4,
        fileUploads := s.fileUploads ++ l5,
        assignments := s.assignments ++ l6,
        assignmentTos := s.assignmentTos ++ l7,
        submissions := s.submissions ++ l8 } :=
  ⟨⟨⟨l1, rfl⟩, ⟨l2, rfl⟩, ⟨l3, rfl⟩, ⟨l4, rfl⟩, ⟨l5, rfl⟩, ⟨l6, rfl⟩,
    ⟨l7, rfl⟩, ⟨l8, rfl⟩,
    ⟨s.classMembers, l9, rfl, forall₂_sameExceptRole_refl _⟩⟩, ⟨l9, rfl⟩⟩

/-- Doing nothing is an insert-only step. -/
theorem insertOnlyM_refl (s : Store) : InsertOnlyM s s := by
  simpa using insertOnlyM_append s [] [] [] [] [] [] [] [] []

/-- Re-mapping member rows in place, preserving id, user and class, is
within the frame relation. -/
theorem insertOnly_roleMap (s : Store) (f : ClassMember → ClassMember)
    (hf : ∀ m, SameExceptRole (f m) m) :
    InsertOnly s { s with classMembers := s.classMembers.map f } :=
  ⟨⟨[], by simp⟩, ⟨[], by simp⟩, ⟨[], by simp⟩, ⟨[], by simp⟩,
   ⟨[], by simp⟩, ⟨[], by simp⟩, ⟨[], by simp⟩, ⟨[], by simp⟩,
   ⟨s.classMembers.map f, [], by simp,
    List.forall₂_map_left_iff.mpr
      (List.forall₂_same.mpr (fun x _ => hf x))⟩⟩

/-- The upload handler only appends a `FileUpload` row. -/
theorem uploadFile_frame (s : Store) (file : Option ReqFile)
    (ft : Option String) (uid cid : Option Int) (fn : Option String)
    (pr ho : String) (now : Int) :
    InsertOnlyM s (uploadFile s file ft uid cid fn pr ho now).2 := by
  unfold uploadFile
  cases file with
  | none => exact insertOnlyM_refl s
  | some f =>
    try dsimp only
    split
    · split
      · simpa using insertOnlyM_append s [] [] [] [] [_] [] [] [] []
      · exact insertOnlyM_refl s
    · exact insertOnlyM_refl s

/-- The classroom-creation handler only appends one room and one member. -/
theorem createClassroom_frame (s : Store) (n d c : JsVal) :
    InsertOnlyM s (createClassroom s n d c).2.2 := by
  unfold createClassroom
  split
  · try dsimp only
    split
    · simpa using insertOnlyM_append s [] [_] [] [] [] [] [] [] [_]
    · exact insertOnlyM_refl s
  · exact insertOnlyM_refl s

/-- The first add-member copy only appends one member row. -/
theorem addMember_frame (s : Store) (c u : JsVal) (r : Option String) :
    InsertOnlyM s (addMember s c u r).2 := by
  unfold addMember
  split
  · try dsimp only
    split
    · simpa using insertOnlyM_append s [] [] [] [] [] [] [] [] [_]
    · exact insertOnlyM_refl s
  · exact insertOnlyM_refl s

/-- The second add-member copy only appends one member row. -/
theorem addMemberSecond_frame (s : Store) (c u : JsVal) (r : Option String) :
    InsertOnlyM s (addMemberSecond s c u r).2 := by
  unfold addMemberSecond
  split
  · try dsimp only
    split
    · simpa using insertOnlyM_append s [] [] [] [] [] [] [] [] [_]
    · exact insertOnlyM_refl s
  · exact insertOnlyM_refl s

/-- The comment handler only appends one comment row. -/
theorem addComment_frame (s : Store) (f : Option Int) (c : Option String)
    (a : Option Int) : InsertOnlyM s (addComment s f c a).2 := by
  unfold addComment
  split
  · try dsimp only
    split
    · simpa using insertOnlyM_append s [] [] [] [_] [] [] [] [] []
    · exact insertOnlyM_refl s
  · exact insertOnlyM_refl s

/-- The role-update handler stays within the frame relation: it can
only change roles of existing member rows, never ids, users, classes or
other tables. -/
theorem updateMemberRole_frame (s : Store) (c u : Option Int)
    (r : Option Role) : InsertOnly s (updateMemberRole s c u r).2 := by
  unfold updateMemberRole
  split
  · try dsimp only
    split
    · exact insertOnly_roleMap s _
        (fun m => by split <;> exact ⟨rfl, rfl, rfl⟩)
    · exact insertOnly_roleMap s _
        (fun m => by split <;> exact ⟨rfl, rfl, rfl⟩)
  · exact (insertOnlyM_refl s).1

/-- The assignment handler only appends the assignment and its fan-out
rows, also on the partial-failure path. -/
theorem createAssignment_frame (s : Store) (c : Option Int)
    (t d : Option String) (cb f : Option Int) (now : Int) :
    InsertOnlyM s (createAssignment s c t d cb f now).2 := by
  unfold createAssignment
  split
  · try dsimp only
    split
    · split
      · simpa using insertOnlyM_append s [] [] [] [] [] [_] _ [] []
      · simpa using insertOnlyM_append s [] [] [] [] [] [_] [] [] []
    · exact insertOnlyM_refl s
  · exact insertOnlyM_refl s

/-- The submission handler only appends one submission row. -/
theorem submitAssignment_frame (s : Store) (a u : Option Int)
    (file : Option ReqFile) (now : Int) :
    InsertOnlyM s (submitAssignment s a u file now).2 := by
  unfold submitAssignment
  cases file with
  | none => exact insertOnlyM_refl s
  | some f =>
    try dsimp only
    split
    · split
      · simpa using insertOnlyM_append s [] [] [] [] [] [] [] [_] []
      · exact insertOnlyM_refl s
    · exact insertOnlyM_refl s

/-- The post handler only appends one post row. -/
theorem createPost_frame (s : Store) (t c : Option String)
    (cid aid : Option Int) (pt : Option PostType) :
    InsertOnlyM s (createPost s t c cid aid pt).2 := by
  unfold createPost
  split
  · try dsimp only
    split
    · simpa using insertOnlyM_append s [] [] [_] [] [] [] [] [] []
    · exact insertOnlyM_refl s
  · exact insertOnlyM_refl s

/-- C9: every operation of the system only inserts rows — no operation
deletes any row, the only field of an existing row any operation may
change is `ClassMember.role`, and any operation other than the role
update leaves even the roles untouched, only appending member rows. -/
theorem frame_C9 (s : Store) (op : Op) :
    InsertOnly s (applyOp s op) ∧
    (op.changesRole = false →
      ∃ l, (applyOp s op).classMembers = s.classMembers ++ l) := by
  cases op with
  | upload file ft uid cid fn pr ho now =>
      exact ⟨(uploadFile_frame s file ft uid cid fn pr ho now).1,
        fun _ => (uploadFile_frame s file ft uid cid fn pr ho now).2⟩
  | newClassroom n d c =>
      exact ⟨(createClassroom_frame s n d c).1,
        fun _ => (createClassroom_frame s n d c).2⟩
  | newMember c u r =>
      exact ⟨(addMember_frame s c u r).1, fun _ => (addMember_frame s c u r).2⟩
  | newMemberSecond c u r =>
      exact ⟨(addMemberSecond_frame s c u r).1,
        fun _ => (addMemberSecond_frame s c u r).2⟩
  | newComment f c a =>
      exact ⟨(addComment_frame s f c a).1, fun _ => (addComment_frame s f c a).2⟩
  | setRole c u r =>
      exact ⟨updateMemberRole_frame s c u r, fun hfalse => by
        simp [Op.changesRole] at hfalse⟩
  | newAssignment c t d cb f now =>
      exact ⟨(createAssignment_frame s c t d cb f now).1,
        fun _ => (createAssignment_frame s c t d cb f now).2⟩
  | submit a u f now =>
      exact ⟨(submitAssignment_frame s a u f now).1,
        fun _ => (submitAssignment_frame s a u f now).2⟩
  | newPost t c cid aid pt =>
      exact ⟨(createPost_frame s t c cid aid pt).1,
        fun _ => (createPost_frame s t c cid aid pt).2⟩
  | getFiles cid => exact ⟨(insertOnlyM_refl s).1, fun _ => ⟨[], by simp [applyOp]⟩⟩
  | getClasses uid => exact ⟨(insertOnlyM_refl s).1, fun _ => ⟨[], by simp [applyOp]⟩⟩
  | getMembers cid => exact ⟨(insertOnlyM_refl s).1, fun _ => ⟨[], by simp [applyOp]⟩⟩
  | getAvailable cid cur =>
      exact ⟨(insertOnlyM_refl s).1, fun _ => ⟨[], by simp [applyOp]⟩⟩
  | getComments fid => exact ⟨(insertOnlyM_refl s).1, fun _ => ⟨[], by simp [applyOp]⟩⟩
  | getAssignments c u =>
      exact ⟨(insertOnlyM_refl s).1, fun _ => ⟨[], by simp [applyOp]⟩⟩
  | getSubmissions a => exact ⟨(insertOnlyM_refl s).1, fun _ => ⟨[], by simp [applyOp]⟩⟩
  | getPosts c => exact ⟨(insertOnlyM_refl s).1, fun _ => ⟨[], by simp [applyOp]⟩⟩

/-- Witness for C9: a concrete comment request, with the role-freeness
hypothesis discharged by evaluation. -/
theorem frame_C9_witness :
    InsertOnly demoStore
      (applyOp demoStore (Op.newComment (some 1) (some "hi") (some 2))) ∧
    ∃ l, (applyOp demoStore
        (Op.newComment (some 1) (some "hi") (some 2))).classMembers
      = demoStore.classMembers ++ l :=
  ⟨(frame_C9 demoStore (Op.newComment (some 1) (some "hi") (some 2))).1,
   (frame_C9 demoStore (Op.newComment (some 1) (some "hi") (some 2))).2 rfl⟩
